import Mathlib

/-!
Shallow embedding of the Codex CLI management module
(`src-tauri/src/codex_cli/commands.rs` and `config.rs`).

Strings are modelled as `List Char` (Rust `&str` as a character sequence);
wrappers over `String` keep the source-level names. Fallible operations
return `Except String _`. External effects (filesystem, network, process
spawning) are modelled by an explicit environment record whose fields hold
the outcome of each external call, so the orchestration logic of
`install_codex_cli` is embedded as a pure function of that environment.
-/

namespace CodexCli

/-- Rust `str::trim_start_matches('v')`: removes every leading `v`. -/
def dropLeadingVs : List Char → List Char
  | [] => []
  | c :: cs => if c = 'v' then dropLeadingVs cs else c :: cs

/-- Rust `str::strip_prefix('v').unwrap_or(s)`: removes a single leading
`v` when present, otherwise the string unchanged. -/
def stripOneV : List Char → List Char
  | [] => []
  | c :: cs => if c = 'v' then cs else c :: cs

/-- One word qualifies as a version token in `extract_version_number`
when, after trimming leading `v`s, it starts with an ASCII digit and
contains a dot (lines 20-26 of commands.rs). -/
def isVersionWord (w : List Char) : Bool :=
  let t := dropLeadingVs w
  (match t.head? with
   | some c => c.isDigit
   | none => false)
  && t.contains '.'

/-- Rust `char::is_whitespace` restricted to the characters Lean's
`Char.isWhitespace` knows; version strings are ASCII in practice. -/
def isWs (c : Char) : Bool := c.isWhitespace

/-- Rust `str::split_whitespace` on a character list: maximal runs of
non-whitespace characters, in order, empty runs dropped. -/
def splitWsAux : List Char → List Char → List (List Char)
  | [], acc => if acc.isEmpty then [] else [acc.reverse]
  | c :: cs, acc =>
    if isWs c then
      if acc.isEmpty then splitWsAux cs [] else acc.reverse :: splitWsAux cs []
    else
      splitWsAux cs (c :: acc)

def splitWs (s : List Char) : List (List Char) := splitWsAux s []

/-- The `for word in version_str.split_whitespace()` loop of
`extract_version_number` (commands.rs lines 17-29): returns the first
qualifying word with its leading `v`s trimmed. -/
def findVersionWord : List (List Char) → Option (List Char)
  | [] => none
  | w :: ws =>
    if isVersionWord w then some (dropLeadingVs w) else findVersionWord ws

/-- `extract_version_number` (commands.rs lines 15-32): first qualifying
whitespace-delimited token with leading `v`s trimmed, or the original
string unchanged when no token qualifies. -/
def extract_version_number (s : List Char) : List Char :=
  match findVersionWord (splitWs s) with
  | some t => t
  | none => s

/-- String-level wrapper for `extract_version_number`. -/
def extractVersionNumberStr (s : String) : String :=
  ⟨extract_version_number s.data⟩

/-- The tag normalization `tag_name.strip_prefix('v').unwrap_or(&tag_name)`
used in `get_available_codex_versions` (commands.rs lines 161-165) and in
`fetch_latest_codex_version` (lines 401-405). -/
def normalizeTag (t : List Char) : List Char := stripOneV t

/-- String-level wrapper for `normalizeTag`. -/
def normalizeTagStr (t : String) : String := ⟨normalizeTag t.data⟩

/-- Rust `str::trim`: drop leading and trailing whitespace. -/
def trimChars (s : List Char) : List Char :=
  ((s.dropWhile isWs).reverse.dropWhile isWs).reverse

/-- Structure `GitHubAsset` (commands.rs lines 78-83). -/
structure GitHubAsset where
  name : String
  browser_download_url : String
deriving DecidableEq

/-- Structure `GitHubRelease` (commands.rs lines 70-76). -/
structure GitHubRelease where
  tag_name : String
  published_at : String
  prerelease : Bool
  assets : List GitHubAsset
deriving DecidableEq

/-- Structure `CodexReleaseInfo` (commands.rs lines 46-56). -/
structure CodexReleaseInfo where
  version : String
  tag_name : String
  published_at : String
  prerelease : Bool
deriving DecidableEq

/-- The per-release mapping applied in `get_available_codex_versions`
(commands.rs lines 159-172): version is the tag with a single leading
`v` stripped. -/
def convertRelease (r : GitHubRelease) : CodexReleaseInfo :=
  { version := normalizeTagStr r.tag_name
    tag_name := r.tag_name
    published_at := r.published_at
    prerelease := r.prerelease }

/-- The pure core of `get_available_codex_versions` (commands.rs lines
154-173), applied to the already-parsed release list: keep releases with
a nonempty asset list, take the first 5, and map each through
`convertRelease`. -/
def get_available_codex_versions (releases : List GitHubRelease) :
    List CodexReleaseInfo :=
  (((releases.filter (fun r => !r.assets.isEmpty)).take 5).map convertRelease)

/-- Output of spawning a process and waiting for it, as observed by the
Rust code: exit-status success plus captured stdout and stderr. -/
structure ExecOutput where
  success : Bool
  stdout : String
  stderr : String
deriving DecidableEq

/-- Structure `CodexCliStatus` (commands.rs lines 35-43). -/
structure CodexCliStatus where
  installed : Bool
  version : Option String
  path : Option String
deriving DecidableEq

/-- Function `check_codex_cli_installed` (commands.rs lines 87-127) as a function
of its external observations: whether the resolved binary path exists,
that path rendered as a string, and the outcome of running
`codex --version` (`.error` when the process could not be spawned). -/
def check_codex_cli_installed (pathExists : Bool) (binaryPath : String)
    (versionRun : Except String ExecOutput) : CodexCliStatus :=
  if !pathExists then
    { installed := false, version := none, path := none }
  else
    let version : Option String :=
      match versionRun with
      | .ok out =>
        if out.success then
          some (extractVersionNumberStr ⟨trimChars out.stdout.data⟩)
        else
          none
      | .error _ => none
    { installed := true, version := version, path := some binaryPath }

/-- Function `resolve_codex_binary` (config.rs lines 41-48) as a function of the
outcome of `get_codex_cli_binary_path` and of the filesystem's existence
predicate: the embedded path when it resolves and exists, otherwise the
bare name `codex` to be found on the system PATH. Total: never fails. -/
def resolve_codex_binary (binaryPathResult : Except String String)
    (pathExists : String → Bool) : String :=
  match binaryPathResult with
  | .ok embedded => if pathExists embedded then embedded else "codex"
  | .error _ => "codex"

/-- One top-level entry of the extraction directory after the archive's
entries have been unpacked into it: its file name and whether it is a
regular file (as opposed to a directory). -/
structure FsEntry where
  name : String
  isFile : Bool
deriving DecidableEq

/-- Rust `Path::extension` on a bare file name: the portion after the
last `.`, or none when the name has no `.` past its first character. -/
def extensionOf (name : List Char) : Option (List Char) :=
  if (name.drop 1).contains '.' then
    some ((name.reverse.takeWhile (fun c => c != '.')).reverse)
  else
    none

/-- The expected binary file name inside an archive: `codex-{platform}`,
with `.exe` appended on Windows (commands.rs lines 451-455). -/
def expectedBinaryName (platform : String) (isWindows : Bool) : String :=
  if isWindows then "codex-" ++ platform ++ ".exe" else "codex-" ++ platform

/-- The candidate test of the zip fallback scan (commands.rs lines
461-475): a regular file, and on Windows one whose extension is `exe`. -/
def zipFallbackCandidate (isWindows : Bool) (e : FsEntry) : Bool :=
  e.isFile && (if isWindows then extensionOf e.name.data == some "exe".data else true)

/-- The binary-locating tail of `extract_zip` (commands.rs lines 451-480),
as a function of the extraction directory's top-level listing (the zip's
entries, all unpacked): return the expected binary name when an entry of
that name exists; otherwise scan the listing for the first fallback
candidate; otherwise fail with the binary-not-found error. -/
def extract_zip (entries : List FsEntry) (platform : String)
    (isWindows : Bool) : Except String String :=
  let binary_name := expectedBinaryName platform isWindows
  if entries.any (fun e => e.name == binary_name) then
    .ok binary_name
  else
    match entries.find? (zipFallbackCandidate isWindows) with
    | some e => .ok e.name
    | none => .error ("Binary not found in archive at " ++ binary_name)

/-- The binary-locating tail of `extract_tar_gz` (commands.rs lines
502-510), as a function of the extraction directory's top-level listing:
the expected name `codex-{platform}` (never `.exe`-suffixed) must exist;
there is no fallback scan. -/
def extract_tar_gz (entries : List FsEntry) (platform : String) :
    Except String String :=
  let binary_name := "codex-" ++ platform
  if entries.any (fun e => e.name == binary_name) then
    .ok binary_name
  else
    .error ("Binary not found in archive at " ++ binary_name)

/-- Structure `CodexInstallProgress` (commands.rs lines 60-67): the payload
`emit_progress` sends for each stage. -/
structure CodexInstallProgress where
  stage : String
  message : String
  percent : Nat
deriving DecidableEq

/-- The six progress payloads `install_codex_cli` can emit, with the
stage names, messages and percents of commands.rs lines 236, 258, 287,
302, 312 and 368. -/
def pStarting : CodexInstallProgress :=
  { stage := "starting", message := "Preparing installation...", percent := 0 }

def pDownloading : CodexInstallProgress :=
  { stage := "downloading", message := "Downloading Codex CLI...", percent := 20 }

def pExtracting : CodexInstallProgress :=
  { stage := "extracting", message := "Extracting archive...", percent := 40 }

def pInstalling : CodexInstallProgress :=
  { stage := "installing", message := "Installing Codex CLI...", percent := 60 }

def pVerifying : CodexInstallProgress :=
  { stage := "verifying", message := "Verifying installation...", percent := 80 }

def pComplete : CodexInstallProgress :=
  { stage := "complete", message := "Installation complete!", percent := 100 }

/-- The outcomes of every external call `install_codex_cli` can make, in
program order. `Except` errors carry the message the corresponding Rust
closure would have produced for the underlying error (the underlying error already
interpolated); response statuses are kept as a success flag plus a
rendered status text so the code's own formatting can be reproduced. -/
structure InstallEnv where
  runningSessions : Nat
  ensureDirResult : Except String Unit
  binaryPathResult : Except String String
  requestedVersion : Option String
  latestClientBuild : Except String Unit
  latestSend : Except String Unit
  latestStatusSuccess : Bool
  latestStatusText : String
  latestParse : Except String GitHubRelease
  platformResult : Except String (String × String)
  dlClientBuild : Except String Unit
  dlSend : Except String Unit
  dlStatusSuccess : Bool
  dlStatusText : String
  dlBytes : Except String Unit
  createTempDir : Except String Unit
  extractResult : Except String String
  copyResult : Except String Unit
  isUnix : Bool
  metadataResult : Except String Unit
  setPermsResult : Except String Unit
  verifyRun : Except String ExecOutput
  priorBinary : Option String
  newBinary : String

/-- What one run of `install_codex_cli` did: the progress events emitted
in order, how many network requests were sent, whether any filesystem
operation was attempted, the content at the final install path when the
run ended (`priorBinary` until the copy of line 305 succeeds, the new
binary afterwards), and the returned result. -/
structure InstallOutcome where
  events : List CodexInstallProgress
  networkRequests : Nat
  fsTouched : Bool
  finalBinary : Option String
  result : Except String Unit

/-- The busy-guard message of commands.rs lines 225-229, with the count
and the singular/plural phrase interpolated. -/
def busyMessage (count : Nat) : String :=
  "Cannot install Codex CLI while " ++ Nat.repr count ++ " Claude "
    ++ (if count == 1 then "session is" else "sessions are")
    ++ " running. Please stop all active sessions first."

/-- The verification-failure message of commands.rs lines 342-349: the
captured stderr when nonempty, a fixed fallback otherwise. -/
def verificationFailedMsg (stderr : String) : String :=
  "Codex CLI binary verification failed: "
    ++ (if stderr == "" then "Unknown error" else stderr)

/-- Function `fetch_latest_codex_version` (commands.rs lines 375-408): build a
client, send the request, check the status, parse the body, strip a
single leading `v` from the tag. -/
def fetchLatestResult (e : InstallEnv) : Except String String :=
  match e.latestClientBuild with
  | .error m => .error ("Failed to create HTTP client: " ++ m)
  | .ok _ =>
    match e.latestSend with
    | .error m => .error ("Failed to fetch latest release: " ++ m)
    | .ok _ =>
      if !e.latestStatusSuccess then
        .error ("Failed to fetch latest release: HTTP " ++ e.latestStatusText)
      else
        match e.latestParse with
        | .error m => .error ("Failed to parse release info: " ++ m)
        | .ok r => .ok (normalizeTagStr r.tag_name)

/-- Network requests sent by `fetch_latest_codex_version`: one, unless
the client could not even be built. -/
def fetchLatestRequests (e : InstallEnv) : Nat :=
  match e.latestClientBuild with
  | .error _ => 0
  | .ok _ => 1

/-- The version-selection step of commands.rs lines 239-242. -/
def versionResult (e : InstallEnv) : Except String String :=
  match e.requestedVersion with
  | some v => .ok v
  | none => fetchLatestResult e

/-- Network requests sent while selecting the version. -/
def versionRequests (e : InstallEnv) : Nat :=
  match e.requestedVersion with
  | some _ => 0
  | none => fetchLatestRequests e

/-- The archive download of commands.rs lines 261-282: build a client,
send the request, check the status, read the body. -/
def downloadResult (e : InstallEnv) : Except String Unit :=
  match e.dlClientBuild with
  | .error m => .error ("Failed to create HTTP client: " ++ m)
  | .ok _ =>
    match e.dlSend with
    | .error m => .error ("Failed to download Codex CLI: " ++ m)
    | .ok _ =>
      if !e.dlStatusSuccess then
        .error ("Failed to download Codex CLI: HTTP " ++ e.dlStatusText)
      else
        match e.dlBytes with
        | .error m => .error ("Failed to read archive content: " ++ m)
        | .ok _ => .ok ()

/-- Network requests sent by the download step. -/
def downloadRequests (e : InstallEnv) : Nat :=
  match e.dlClientBuild with
  | .error _ => 0
  | .ok _ => 1

/-- The Unix permission fix-up of commands.rs lines 315-324; a no-op on
non-Unix targets. -/
def permsResult (e : InstallEnv) : Except String Unit :=
  if e.isUnix then
    match e.metadataResult with
    | .error m => .error ("Failed to get binary metadata: " ++ m)
    | .ok _ =>
      match e.setPermsResult with
      | .error m => .error ("Failed to set binary permissions: " ++ m)
      | .ok _ => .ok ()
  else
    .ok ()

/-- Function `install_codex_cli` (commands.rs lines 218-372) as a pure function of
the outcomes of its external calls. Each early `return Err(...)` of the
Rust function is one error leaf; the events list records every
`emit_progress` call made before that point, in order. The best-effort
temp-directory cleanup (line 309) and macOS quarantine removal (lines
358-365) have no observable effect on any `InstallOutcome` field and are
therefore not represented. -/
def install_codex_cli (e : InstallEnv) : InstallOutcome :=
  if e.runningSessions != 0 then
    { events := [], networkRequests := 0, fsTouched := false,
      finalBinary := e.priorBinary,
      result := .error (busyMessage e.runningSessions) }
  else
    match e.ensureDirResult with
    | .error m =>
      { events := [], networkRequests := 0, fsTouched := true,
        finalBinary := e.priorBinary, result := .error m }
    | .ok _ =>
      match e.binaryPathResult with
      | .error m =>
        { events := [], networkRequests := 0, fsTouched := true,
          finalBinary := e.priorBinary, result := .error m }
      | .ok _ =>
        match versionResult e with
        | .error m =>
          { events := [pStarting], networkRequests := versionRequests e,
            fsTouched := true, finalBinary := e.priorBinary,
            result := .error m }
        | .ok _ =>
          match e.platformResult with
          | .error m =>
            { events := [pStarting], networkRequests := versionRequests e,
              fsTouched := true, finalBinary := e.priorBinary,
              result := .error m }
          | .ok _ =>
            match downloadResult e with
            | .error m =>
              { events := [pStarting, pDownloading],
                networkRequests := versionRequests e + downloadRequests e,
                fsTouched := true, finalBinary := e.priorBinary,
                result := .error m }
            | .ok _ =>
              match e.createTempDir with
              | .error m =>
                { events := [pStarting, pDownloading, pExtracting],
                  networkRequests := versionRequests e + downloadRequests e,
                  fsTouched := true, finalBinary := e.priorBinary,
                  result := .error m }
              | .ok _ =>
                match e.extractResult with
                | .error m =>
                  { events := [pStarting, pDownloading, pExtracting],
                    networkRequests := versionRequests e + downloadRequests e,
                    fsTouched := true, finalBinary := e.priorBinary,
                    result := .error m }
                | .ok _ =>
                  match e.copyResult with
                  | .error m =>
                    { events := [pStarting, pDownloading, pExtracting,
                        pInstalling],
                      networkRequests := versionRequests e + downloadRequests e,
                      fsTouched := true, finalBinary := e.priorBinary,
                      result := .error ("Failed to copy binary: " ++ m) }
                  | .ok _ =>
                    match permsResult e with
                    | .error m =>
                      { events := [pStarting, pDownloading, pExtracting,
                          pInstalling, pVerifying],
                        networkRequests :=
                          versionRequests e + downloadRequests e,
                        fsTouched := true, finalBinary := some e.newBinary,
                        result := .error m }
                    | .ok _ =>
                      match e.verifyRun with
                      | .error m =>
                        { events := [pStarting, pDownloading, pExtracting,
                            pInstalling, pVerifying],
                          networkRequests :=
                            versionRequests e + downloadRequests e,
                          fsTouched := true, finalBinary := some e.newBinary,
                          result :=
                            .error ("Failed to verify Codex CLI: " ++ m) }
                      | .ok out =>
                        if !out.success then
                          { events := [pStarting, pDownloading, pExtracting,
                              pInstalling, pVerifying],
                            networkRequests :=
                              versionRequests e + downloadRequests e,
                            fsTouched := true,
                            finalBinary := some e.newBinary,
                            result :=
                              .error (verificationFailedMsg out.stderr) }
                        else
                          { events := [pStarting, pDownloading, pExtracting,
                              pInstalling, pVerifying, pComplete],
                            networkRequests :=
                              versionRequests e + downloadRequests e,
                            fsTouched := true,
                            finalBinary := some e.newBinary,
                            result := .ok () }




/-- Qualifying predicate exactly as claim C6 words it (a *single* leading
`v` is stripped before testing), for comparison with the source's
`isVersionWord`, which strips every leading `v`. -/
def claimVersionWord (w : List Char) : Bool :=
  let t := stripOneV w
  (match t.head? with
   | some c => c.isDigit
   | none => false)
  && t.contains '.'

/-- Environment of an install attempt made while two sessions run. All
later outcomes are benign; none of them is ever reached. -/
def envBusy : InstallEnv :=
  { runningSessions := 2
    ensureDirResult := .ok ()
    binaryPathResult := .ok "/data/codex-cli/codex"
    requestedVersion := some "1.0.0"
    latestClientBuild := .ok ()
    latestSend := .ok ()
    latestStatusSuccess := true
    latestStatusText := "200 OK"
    latestParse := .ok { tag_name := "v1.0.0", published_at := "2025-01-01T00:00:00Z",
                         prerelease := false, assets := [] }
    platformResult := .ok ("x86_64-unknown-linux-musl", "tar.gz")
    dlClientBuild := .ok ()
    dlSend := .ok ()
    dlStatusSuccess := true
    dlStatusText := "200 OK"
    dlBytes := .ok ()
    createTempDir := .ok ()
    extractResult := .ok "codex-x86_64-unknown-linux-musl"
    copyResult := .ok ()
    isUnix := true
    metadataResult := .ok ()
    setPermsResult := .ok ()
    verifyRun := .ok { success := true, stdout := "codex-cli 1.0.0", stderr := "" }
    priorBinary := none
    newBinary := "new-binary-bytes" }

/-- Environment of a fully successful install attempt. -/
def envSuccess : InstallEnv :=
  { runningSessions := 0
    ensureDirResult := .ok ()
    binaryPathResult := .ok "/data/codex-cli/codex"
    requestedVersion := none
    latestClientBuild := .ok ()
    latestSend := .ok ()
    latestStatusSuccess := true
    latestStatusText := "200 OK"
    latestParse := .ok { tag_name := "v1.0.0", published_at := "2025-01-01T00:00:00Z",
                         prerelease := false,
                         assets := [{ name := "codex-x86_64-unknown-linux-musl.tar.gz",
                                      browser_download_url := "https://example.invalid/a" }] }
    platformResult := .ok ("x86_64-unknown-linux-musl", "tar.gz")
    dlClientBuild := .ok ()
    dlSend := .ok ()
    dlStatusSuccess := true
    dlStatusText := "200 OK"
    dlBytes := .ok ()
    createTempDir := .ok ()
    extractResult := .ok "codex-x86_64-unknown-linux-musl"
    copyResult := .ok ()
    isUnix := true
    metadataResult := .ok ()
    setPermsResult := .ok ()
    verifyRun := .ok { success := true, stdout := "codex-cli 1.0.0", stderr := "" }
    priorBinary := none
    newBinary := "new-binary-bytes" }

/-- Environment identical to a successful run except that the installed
binary's version query exits unsuccessfully with stderr `boom`. -/
def envVerifyFail : InstallEnv :=
  { runningSessions := 0
    ensureDirResult := .ok ()
    binaryPathResult := .ok "/data/codex-cli/codex"
    requestedVersion := some "1.0.0"
    latestClientBuild := .ok ()
    latestSend := .ok ()
    latestStatusSuccess := true
    latestStatusText := "200 OK"
    latestParse := .ok { tag_name := "v1.0.0", published_at := "2025-01-01T00:00:00Z",
                         prerelease := false, assets := [] }
    platformResult := .ok ("x86_64-unknown-linux-musl", "tar.gz")
    dlClientBuild := .ok ()
    dlSend := .ok ()
    dlStatusSuccess := true
    dlStatusText := "200 OK"
    dlBytes := .ok ()
    createTempDir := .ok ()
    extractResult := .ok "codex-x86_64-unknown-linux-musl"
    copyResult := .ok ()
    isUnix := true
    metadataResult := .ok ()
    setPermsResult := .ok ()
    verifyRun := .ok { success := false, stdout := "", stderr := "boom" }
    priorBinary := some "old-binary-bytes"
    newBinary := "new-binary-bytes" }

theorem findVersionWord_eq (ws : List (List Char)) :
    findVersionWord ws = ((ws.find? isVersionWord).map dropLeadingVs) := by
  induction ws with
  | nil => rfl
  | cons w ws ih =>
    by_cases h : isVersionWord w
    · simp [findVersionWord, List.find?, h]
    · simp [findVersionWord, List.find?, h, ih]

/-- C6 counterexample: `"vv1.2.3"` has no token that qualifies under the
claim's single-`v`-strip rule, so the claim demands the input back
unchanged; the code returns `"1.2.3"` instead. -/
theorem c6_counterexample :
    ((splitWs "vv1.2.3".data).all (fun w => !claimVersionWord w)) = true
    ∧ extract_version_number "vv1.2.3".data = "1.2.3".data
    ∧ "vv1.2.3".data ≠ "1.2.3".data := by decide

/-- C6 amended: qualification and trimming strip every leading `v`. -/
theorem c6_amended :
    (∀ s : List Char,
      extract_version_number s =
        match (splitWs s).find? isVersionWord with
        | some w => dropLeadingVs w
        | none => s)
    ∧ extractVersionNumberStr "codex v1.2.3" = "1.2.3"
    ∧ extractVersionNumberStr "no version here" = "no version here"
    ∧ extractVersionNumberStr "vv1.2.3" = "1.2.3" := by
  refine ⟨fun s => ?_, by decide, by decide, by decide⟩
  rw [extract_version_number, findVersionWord_eq]
  cases (splitWs s).find? isVersionWord <;> rfl

/-- C9 counterexample: `normalizeTag` strips one leading `v` per call, so
on `"vv2.0.0"` a second application strips a second `v`. -/
theorem c9_counterexample :
    normalizeTag (normalizeTag "vv2.0.0".data) ≠ normalizeTag "vv2.0.0".data := by
  decide

/-- C9 amended: `normalizeTag` is idempotent on every tag that does not
start with two `v` characters; the claim's two concrete examples hold. -/
theorem c9_amended :
    (∀ t : List Char, t.take 2 ≠ ['v', 'v'] →
        normalizeTag (normalizeTag t) = normalizeTag t)
    ∧ normalizeTagStr "v2.0.0" = "2.0.0"
    ∧ normalizeTagStr "2.0.0" = "2.0.0" := by
  refine ⟨fun t ht => ?_, by decide, by decide⟩
  match t with
  | [] => rfl
  | c :: cs =>
    by_cases hc : c = 'v'
    · subst hc
      match cs with
      | [] => rfl
      | d :: ds =>
        by_cases hd : d = 'v'
        · subst hd; simp at ht
        · simp [normalizeTag, stripOneV, hd]
    · simp [normalizeTag, stripOneV, hc]

/-- C9 witness: idempotence applied at the concrete tag `"v2.0.0"`. -/
theorem c9_witness :
    ("v2.0.0".data.take 2 ≠ ['v', 'v'])
    ∧ normalizeTag (normalizeTag "v2.0.0".data) = normalizeTag "v2.0.0".data :=
  ⟨by decide, c9_amended.1 "v2.0.0".data (by decide)⟩


/-- C7: the release listing keeps at most 5 entries, drops releases with
an empty asset list, preserves catalog order (the kept releases form a
sublist of the input), and maps each version by stripping one leading
`v` from the tag. -/
theorem c7_available_versions (releases : List GitHubRelease) :
    (get_available_codex_versions releases).length ≤ 5
    ∧ ∃ sub : List GitHubRelease,
        sub.Sublist releases
        ∧ (∀ r ∈ sub, r.assets ≠ [])
        ∧ get_available_codex_versions releases = sub.map convertRelease
        ∧ ∀ r ∈ sub, (convertRelease r).version = normalizeTagStr r.tag_name := by
  refine ⟨?_, (releases.filter (fun r => !r.assets.isEmpty)).take 5, ?_, ?_, ?_, ?_⟩
  · simp [get_available_codex_versions]
  · exact (List.take_sublist _ _).trans (List.filter_sublist _)
  · intro r hr
    have hmem : r ∈ releases.filter (fun r => !r.assets.isEmpty) :=
      (List.take_sublist _ _).mem hr
    have := List.of_mem_filter hmem
    simpa [List.isEmpty_iff] using this
  · rfl
  · intro r _
    rfl

/-- C7 witness: a two-release catalog whose second release has no assets
yields just the converted first release, within the cap of 5. -/
theorem c7_witness :
    get_available_codex_versions
        [{ tag_name := "v2.0.0", published_at := "2025-02-01T00:00:00Z",
           prerelease := false,
           assets := [{ name := "codex-x86_64-unknown-linux-musl.tar.gz",
                        browser_download_url := "https://example.invalid/b" }] },
         { tag_name := "v1.0.0", published_at := "2025-01-01T00:00:00Z",
           prerelease := false, assets := [] }]
      = [{ version := "2.0.0", tag_name := "v2.0.0",
           published_at := "2025-02-01T00:00:00Z", prerelease := false }]
    ∧ (get_available_codex_versions
        [{ tag_name := "v2.0.0", published_at := "2025-02-01T00:00:00Z",
           prerelease := false,
           assets := [{ name := "codex-x86_64-unknown-linux-musl.tar.gz",
                        browser_download_url := "https://example.invalid/b" }] },
         { tag_name := "v1.0.0", published_at := "2025-01-01T00:00:00Z",
           prerelease := false, assets := [] }]).length ≤ 5 :=
  ⟨by decide, (c7_available_versions _).1⟩

/-- C8: existence of the binary path alone decides `installed`; the path
field is populated exactly when installed; the version field is the
extracted token from trimmed stdout on a successful run and absent on a
failed spawn or unsuccessful exit. -/
theorem c8_check_installed (bp : String) (run : Except String ExecOutput) :
    check_codex_cli_installed false bp run
      = { installed := false, version := none, path := none }
    ∧ (∀ pe : Bool, (check_codex_cli_installed pe bp run).installed = pe)
    ∧ (∀ pe : Bool, (check_codex_cli_installed pe bp run).path
        = if pe then some bp else none)
    ∧ (∀ out : ExecOutput, out.success = true →
        check_codex_cli_installed true bp (.ok out)
          = { installed := true,
              version := some (extractVersionNumberStr ⟨trimChars out.stdout.data⟩),
              path := some bp })
    ∧ (∀ out : ExecOutput, out.success = false →
        (check_codex_cli_installed true bp (.ok out)).version = none)
    ∧ (∀ m : String, (check_codex_cli_installed true bp (.error m)).version = none)
    ∧ (∀ pe : Bool, ((check_codex_cli_installed pe bp run).path).isSome
        = (check_codex_cli_installed pe bp run).installed) := by
  refine ⟨rfl, ?_, ?_, ?_, ?_, fun m => rfl, ?_⟩
  · intro pe; cases pe <;> rfl
  · intro pe; cases pe <;> rfl
  · intro out h; simp [check_codex_cli_installed, h]
  · intro out h; simp [check_codex_cli_installed, h]
  · intro pe; cases pe <;> rfl

/-- C8 witness: a present, runnable binary printing `codex v1.2.3`. -/
theorem c8_witness :
    check_codex_cli_installed true "/data/codex-cli/codex"
        (.ok { success := true, stdout := "codex v1.2.3", stderr := "" })
      = { installed := true, version := some "1.2.3",
          path := some "/data/codex-cli/codex" } := by
  rw [(c8_check_installed "/data/codex-cli/codex"
        (.ok { success := true, stdout := "codex v1.2.3", stderr := "" })).2.2.2.1
      { success := true, stdout := "codex v1.2.3", stderr := "" } rfl]
  decide

/-- C10: the binary resolver prefers the embedded path when it resolves
and exists, and falls back to the bare `codex` name both when the file
is absent and when the application data directory cannot be resolved;
being a total function, it never fails. -/
theorem c10_resolve_binary (res : Except String String) (ex : String → Bool) :
    (∀ p, res = .ok p → ex p = true → resolve_codex_binary res ex = p)
    ∧ (∀ p, res = .ok p → ex p = false → resolve_codex_binary res ex = "codex")
    ∧ (∀ m, res = .error m → resolve_codex_binary res ex = "codex") := by
  refine ⟨?_, ?_, ?_⟩
  · intro p hp hex; subst hp; simp [resolve_codex_binary, hex]
  · intro p hp hex; subst hp; simp [resolve_codex_binary, hex]
  · intro m hm; subst hm; rfl

/-- C10 witness: an existing embedded binary is returned as-is, and an
unresolvable application data directory falls back to `codex`. -/
theorem c10_witness :
    resolve_codex_binary (.ok "/data/codex-cli/codex") (fun _ => true)
      = "/data/codex-cli/codex"
    ∧ resolve_codex_binary (.error "failed to get app data directory")
        (fun _ => true) = "codex" :=
  ⟨(c10_resolve_binary (.ok "/data/codex-cli/codex") (fun _ => true)).1 _ rfl rfl,
   (c10_resolve_binary (.error "failed to get app data directory")
      (fun _ => true)).2.2 _ rfl⟩

/-- C5: when the expected binary name is absent from the extraction
directory, the gzip-tar extractor fails with the binary-not-found error
and performs no fallback scan, while the zip extractor returns the first
fallback candidate (any regular file; on Windows any `.exe` file) and
fails only when no candidate exists. -/
theorem c5_extractor_fallback (entries : List FsEntry) (platform : String)
    (isWindows : Bool) :
    ((("codex-" ++ platform) ∉ entries.map FsEntry.name) →
        extract_tar_gz entries platform
          = .error ("Binary not found in archive at " ++ ("codex-" ++ platform)))
    ∧ ((expectedBinaryName platform isWindows ∉ entries.map FsEntry.name) →
        (∀ en, entries.find? (zipFallbackCandidate isWindows) = some en →
            extract_zip entries platform isWindows = .ok en.name)
        ∧ (entries.find? (zipFallbackCandidate isWindows) = none →
            extract_zip entries platform isWindows
              = .error ("Binary not found in archive at "
                  ++ expectedBinaryName platform isWindows))) := by
  constructor
  · intro habs
    have hany : entries.any (fun e => e.name == ("codex-" ++ platform)) = false := by
      simp only [List.any_eq_false]
      intro e he
      simp only [beq_iff_eq]
      intro hname
      exact habs (List.mem_map.mpr ⟨e, he, hname⟩)
    simp [extract_tar_gz, hany]
  · intro habs
    have hany : entries.any (fun e => e.name == expectedBinaryName platform isWindows) = false := by
      simp only [List.any_eq_false]
      intro e he
      simp only [beq_iff_eq]
      intro hname
      exact habs (List.mem_map.mpr ⟨e, he, hname⟩)
    constructor
    · intro en hen
      simp [extract_zip, hany, hen]
    · intro hnone
      simp [extract_zip, hany, hnone]

/-- C5 witness: a Linux-style listing holding only a stray regular file:
the tar variant fails outright, the zip variant falls back to it. -/
theorem c5_witness :
    extract_tar_gz [{ name := "README.md", isFile := true }]
        "x86_64-unknown-linux-musl"
      = .error "Binary not found in archive at codex-x86_64-unknown-linux-musl"
    ∧ extract_zip [{ name := "README.md", isFile := true }]
        "x86_64-unknown-linux-musl" false
      = .ok "README.md" := by
  have h := c5_extractor_fallback [{ name := "README.md", isFile := true }]
    "x86_64-unknown-linux-musl" false
  constructor
  · have := h.1 (by decide)
    simpa using this
  · have := (h.2 (by decide)).1 { name := "README.md", isFile := true } (by decide)
    simpa using this


/-- C2: a nonzero running-session count fails the install immediately
with the busy error carrying that count; no progress event is emitted,
no filesystem operation is attempted, zero network requests are sent,
and the binary at the final path is untouched. -/
theorem c2_busy_guard (e : InstallEnv) (h : e.runningSessions ≠ 0) :
    install_codex_cli e =
      { events := [], networkRequests := 0, fsTouched := false,
        finalBinary := e.priorBinary,
        result := .error (busyMessage e.runningSessions) }
    ∧ ∃ l r : List Char, (busyMessage e.runningSessions).data
        = l ++ (Nat.repr e.runningSessions).data ++ r := by
  constructor
  · have hb : (e.runningSessions != 0) = true := by simpa using h
    simp [install_codex_cli, hb]
  · refine ⟨"Cannot install Codex CLI while ".data,
      (" Claude "
        ++ (if e.runningSessions == 1 then "session is" else "sessions are")
        ++ " running. Please stop all active sessions first.").data, ?_⟩
    simp [busyMessage]



/-- C2 witness: with two sessions running the install returns the busy
error for count 2, emits nothing, touches nothing, sends nothing. -/
theorem c2_witness :
    (install_codex_cli envBusy).result = .error (busyMessage 2)
    ∧ (install_codex_cli envBusy).networkRequests = 0
    ∧ (install_codex_cli envBusy).fsTouched = false
    ∧ (install_codex_cli envBusy).events = [] := by
  have h := (c2_busy_guard envBusy (by decide)).1
  exact ⟨by rw [h]; rfl, by rw [h], by rw [h], by rw [h]⟩

/-- Case analysis of `install_codex_cli`: the emitted events are always
one of the seven stage prefixes, and the full six-stage list is emitted
exactly on the successful run. -/
theorem install_cases (e : InstallEnv) :
    ((install_codex_cli e).events = []
      ∨ (install_codex_cli e).events = [pStarting]
      ∨ (install_codex_cli e).events = [pStarting, pDownloading]
      ∨ (install_codex_cli e).events = [pStarting, pDownloading, pExtracting]
      ∨ (install_codex_cli e).events
          = [pStarting, pDownloading, pExtracting, pInstalling]
      ∨ (install_codex_cli e).events
          = [pStarting, pDownloading, pExtracting, pInstalling, pVerifying]
      ∨ (install_codex_cli e).events
          = [pStarting, pDownloading, pExtracting, pInstalling, pVerifying,
             pComplete])
    ∧ ((install_codex_cli e).result = .ok ()
        ↔ (install_codex_cli e).events
            = [pStarting, pDownloading, pExtracting, pInstalling, pVerifying,
               pComplete]) := by
  unfold install_codex_cli
  repeat' split
  all_goals
    simp [pStarting, pDownloading, pExtracting, pInstalling, pVerifying,
      pComplete]

/-- C3: a successful install emits exactly the six stages in order with
percents 0,20,40,60,80,100; on every attempt the emitted percents are
non-decreasing; and percent 100 is emitted exactly on success. -/
theorem c3_progress_events (e : InstallEnv) :
    ((install_codex_cli e).result = .ok () →
        (install_codex_cli e).events
          = [pStarting, pDownloading, pExtracting, pInstalling, pVerifying,
             pComplete])
    ∧ ((install_codex_cli e).events.map CodexInstallProgress.percent).Chain'
        (· ≤ ·)
    ∧ (100 ∈ (install_codex_cli e).events.map CodexInstallProgress.percent
        ↔ (install_codex_cli e).result = .ok ()) := by
  obtain ⟨hcases, hiff⟩ := install_cases e
  refine ⟨hiff.mp, ?_, ?_⟩
  · rcases hcases with h|h|h|h|h|h|h <;> rw [h] <;>
      simp [pStarting, pDownloading, pExtracting, pInstalling, pVerifying,
        pComplete, List.chain'_cons]
  · constructor
    · intro hmem
      rcases hcases with h|h|h|h|h|h|h <;>
        first
          | (exfalso; rw [h] at hmem; revert hmem; decide)
          | exact hiff.mpr h
    · intro hok
      rw [hiff.mp hok]
      simp [pStarting, pDownloading, pExtracting, pInstalling, pVerifying,
        pComplete]



/-- C3 witness: the successful environment emits the six stages with
percents 0,20,40,60,80,100 and reaches percent 100. -/
theorem c3_witness :
    (install_codex_cli envSuccess).result = .ok ()
    ∧ (install_codex_cli envSuccess).events
        = [pStarting, pDownloading, pExtracting, pInstalling, pVerifying,
           pComplete]
    ∧ (install_codex_cli envSuccess).events.map CodexInstallProgress.percent
        = [0, 20, 40, 60, 80, 100] := by
  refine ⟨rfl, (c3_progress_events envSuccess).1 rfl, ?_⟩
  rw [(c3_progress_events envSuccess).1 rfl]
  rfl

/-- C4: if every step up to verification succeeds but the version query
of the installed binary exits unsuccessfully, the install fails with the
verification error embedding the captured stderr, and the newly copied
binary stays at the final install path (no rollback). -/
theorem c4_verify_failure (e : InstallEnv) (out : ExecOutput)
    (hrun : e.runningSessions = 0)
    (hdir : e.ensureDirResult = .ok ())
    (hpath : ∃ p, e.binaryPathResult = .ok p)
    (hver : ∃ v, versionResult e = .ok v)
    (hplat : ∃ pf, e.platformResult = .ok pf)
    (hdl : downloadResult e = .ok ())
    (htmp : e.createTempDir = .ok ())
    (hext : ∃ q, e.extractResult = .ok q)
    (hcopy : e.copyResult = .ok ())
    (hperm : permsResult e = .ok ())
    (hverify : e.verifyRun = .ok out)
    (hfail : out.success = false) :
    (install_codex_cli e).result = .error (verificationFailedMsg out.stderr)
    ∧ (install_codex_cli e).finalBinary = some e.newBinary
    ∧ ∃ l r : List Char, (verificationFailedMsg out.stderr).data
        = l ++ out.stderr.data ++ r := by
  obtain ⟨p, hp⟩ := hpath
  obtain ⟨v, hv⟩ := hver
  obtain ⟨pf, hpf⟩ := hplat
  obtain ⟨q, hq⟩ := hext
  refine ⟨?_, ?_, ?_⟩
  · simp [install_codex_cli, hrun, hdir, hp, hv, hpf, hdl, htmp, hq, hcopy,
      hperm, hverify, hfail]
  · simp [install_codex_cli, hrun, hdir, hp, hv, hpf, hdl, htmp, hq, hcopy,
      hperm, hverify, hfail]
  · by_cases hs : out.stderr = ""
    · exact ⟨(verificationFailedMsg out.stderr).data, [], by simp [hs]⟩
    · refine ⟨"Codex CLI binary verification failed: ".data, [], ?_⟩
      have hb : (out.stderr == "") = false := by simpa using hs
      simp [verificationFailedMsg, hb]


/-- C4 witness: the failing verification run ends with the verification
error carrying `boom` while the new binary is still installed. -/
theorem c4_witness :
    (install_codex_cli envVerifyFail).result
      = .error "Codex CLI binary verification failed: boom"
    ∧ (install_codex_cli envVerifyFail).finalBinary = some "new-binary-bytes" := by
  have h := c4_verify_failure envVerifyFail
    { success := false, stdout := "", stderr := "boom" }
    rfl rfl ⟨_, rfl⟩ ⟨_, rfl⟩ ⟨_, rfl⟩ rfl rfl ⟨_, rfl⟩ rfl rfl rfl rfl
  exact ⟨h.1.trans rfl, h.2.1⟩

end CodexCli
